import Mathlib

/-!
# Verification of the Aeron telegraf plugins

A shallow embedding, in Lean 4, of the core logic of the three Aeron
telegraf plugins of this repository:

* `aeron_publisher` (outputs): the `Write` / `publishMessage` retry loop with
  exponential backoff and classification of Aeron offer result codes;
* `aeron_stat` (inputs): the pure counter-classification
  (`parseCounterType`, `getMeasurementName`), label parsing
  (`parseCounterLabel`) and the per-cycle collection (`collectCounters`);
* `aeron_subscriber` (inputs): configuration validation (`Init`),
  idle-strategy construction (`createIdleStrategy`), the fragment handler
  and `Stop`.

Go machine integers are modelled as `Int`/`Nat` (none of the verified logic
overflows or relies on wrap-around); Go strings are modelled as `List Char`
where positional slicing matters (label parsing; the patterns searched for
are ASCII, so byte positions and char positions line up on any valid UTF-8
input) and as `String` elsewhere; Go maps are modelled as association lists
with insert-or-replace updates; Go `error` returns are modelled with
`Option`/`Except`.  The `float64` backoff multiplier is modelled as an exact
rational `backoffNum / backoffDen`, with the Go `time.Duration` conversion's
truncation toward zero modelled by natural division.
-/

namespace AeronTelegraf

/-! ## Aeron offer result codes (from the aeron-go client library) -/

/-- `aeron.NotConnected` offer result code. -/
def NotConnected : Int := -1

/-- `aeron.BackPressured` offer result code. -/
def BackPressured : Int := -2

/-- `aeron.AdminAction` offer result code. -/
def AdminAction : Int := -3

/-- `aeron.PublicationClosed` offer result code. -/
def PublicationClosed : Int := -4

/-! ## aeron_publisher: `publishMessage` retry loop -/

/-- The retryable error conditions recorded in `lastErr` by `publishMessage`. -/
inductive PubError where
  | backpressure
  | notConnected
  | adminAction
  | unknown (code : Int)
  deriving DecidableEq, Repr

/-- What one offer result makes the `switch` in `publishMessage` do. -/
inductive ResultClass where
  /-- set `lastErr` and `continue` the retry loop -/
  | retryable (e : PubError)
  /-- `aeron.PublicationClosed`: return the error, do not retry -/
  | terminalClosed
  /-- positive result: success, return nil -/
  | ok
  deriving DecidableEq, Repr

/-- Classification of an `Offer` result, mirroring the `switch result` in
`publishMessage` (branch order as in the source; the `default` branch treats
a positive result as success and anything else as a retryable unknown code). -/
def classify (result : Int) : ResultClass :=
  if result = BackPressured then .retryable .backpressure
  else if result = NotConnected then .retryable .notConnected
  else if result = AdminAction then .retryable .adminAction
  else if result = PublicationClosed then .terminalClosed
  else if result > 0 then .ok
  else .retryable (.unknown result)

/-- How a `publishMessage` call returned. -/
inductive PubOutcome where
  /-- returned nil -/
  | success
  /-- returned the "publication closed" error without retrying further -/
  | closedError
  /-- fell out of the loop: "failed after %d retries: %w" wrapping `lastErr` -/
  | exhaustedError (last : Option PubError)
  deriving DecidableEq, Repr

/-- Observable trace of one `publishMessage` call: its return value, the
number of `retryAttempts.Incr(1)` calls, and the sequence of `time.Sleep`
delays in order. -/
structure PubResult where
  outcome : PubOutcome
  retries : Nat
  sleeps : List Nat
  deriving DecidableEq, Repr

/-- Configuration of the publisher relevant to `publishMessage` and `Write`.
Durations are in abstract integral units (Go: nanoseconds); the `float64`
`retry_backoff_multiplier` is the exact rational `backoffNum / backoffDen`. -/
structure PublisherCfg where
  maxRetries : Nat
  retryDelay : Nat
  backoffNum : Nat
  backoffDen : Nat
  maxRetryDelay : Nat
  maxMessageSize : Int
  deriving DecidableEq, Repr

/-- One-step delay update of `publishMessage`:
`delay = delay * multiplier`, then clamp to `maxRetryDelay`. -/
def nextDelay (cfg : PublisherCfg) (delay : Nat) : Nat :=
  min (delay * cfg.backoffNum / cfg.backoffDen) cfg.maxRetryDelay

/-- The `for attempt := 0; attempt <= maxRetries; attempt++` loop of
`publishMessage`, with `fuel = maxRetries + 1 - attempt` remaining
iterations.  `results attempt` is the offer result the transport returns for
that attempt (`offerMessage` itself never returns a non-nil Go error, so the
`err != nil` branch of the source is dead and not modelled).  On an
iteration with `attempt > 0` the source first increments the retry counter,
sleeps the current delay, and updates the delay; the offer and its
classification follow. -/
def publishIter (cfg : PublisherCfg) (results : Nat → Int) :
    (fuel attempt delay : Nat) → (lastErr : Option PubError) → PubResult
  | 0, _, _, lastErr => ⟨.exhaustedError lastErr, 0, []⟩
  | fuel + 1, attempt, delay, _ =>
    let delay' := if attempt = 0 then delay else nextDelay cfg delay
    let rest : PubResult :=
      match classify (results attempt) with
      | .ok => ⟨.success, 0, []⟩
      | .terminalClosed => ⟨.closedError, 0, []⟩
      | .retryable e => publishIter cfg results fuel (attempt + 1) delay' (some e)
    if attempt = 0 then rest
    else ⟨rest.outcome, rest.retries + 1, delay :: rest.sleeps⟩

/-- `publishMessage(data)`: run the retry loop from attempt 0 with the
configured initial delay; the payload bytes only flow into `Offer`, so the
trace depends on the transport's result sequence alone. -/
def publishMessage (cfg : PublisherCfg) (results : Nat → Int) : PubResult :=
  publishIter cfg results (cfg.maxRetries + 1) 0 cfg.retryDelay none

/-! ## aeron_publisher: `Write` -/

/-- Observable effects of one `Write` call: its returned error (if any), the
statistics counter increments it performs, and the payloads for which
`publishMessage` (and hence at least one transport `Offer`) was invoked, in
order. -/
structure WriteEffects where
  err : Option String
  sent : Nat
  dropped : Nat
  bytes : Nat
  retries : Nat
  offered : List (List Nat)
  deriving DecidableEq, Repr

/-- One metric of a `Write` batch, represented by what the external
collaborators do with it: the serializer's result for it (payload bytes, or
a serialization error) and the transport's offer-result sequence for its
`publishMessage` call. -/
def WriteItem : Type := Except Unit (List Nat) × (Nat → Int)

/-- The `for _, metric := range metrics` loop body of `Write`:
serialization failure → log and continue; size guard
(`MaxMessageSize > 0 && len(data) > MaxMessageSize`) → count dropped, log
and continue without offering; otherwise `publishMessage`, counting the
metric as sent (with its bytes) on success and dropped on failure. -/
def processMetrics (cfg : PublisherCfg) : List WriteItem → WriteEffects
  | [] => ⟨none, 0, 0, 0, 0, []⟩
  | (ser, results) :: rest =>
    let e := processMetrics cfg rest
    match ser with
    | .error _ => e
    | .ok data =>
      if cfg.maxMessageSize > 0 ∧ (data.length : Int) > cfg.maxMessageSize then
        { e with dropped := e.dropped + 1 }
      else
        let pr := publishMessage cfg results
        match pr.outcome with
        | .success =>
          { e with
            sent := e.sent + 1
            bytes := e.bytes + data.length
            retries := e.retries + pr.retries
            offered := data :: e.offered }
        | _ =>
          { e with
            dropped := e.dropped + 1
            retries := e.retries + pr.retries
            offered := data :: e.offered }

/-- `Write(metrics)`: fail fast when not connected / the publication handle
is nil / no serializer is set, otherwise process every metric and return nil
(the loop `continue`s past every per-metric failure; no error from the loop
reaches the caller). -/
def writeGo (cfg : PublisherCfg) (connected publicationSet serializerSet : Bool)
    (items : List WriteItem) : WriteEffects :=
  if ¬connected ∨ ¬publicationSet then ⟨some "not connected to Aeron", 0, 0, 0, 0, []⟩
  else if ¬serializerSet then ⟨some "serializer not set", 0, 0, 0, 0, []⟩
  else processMetrics cfg items

/-! ## aeron_subscriber: configuration, idle strategy, fragment handler, Stop -/

/-- The configuration fields of `AeronSubscriber` (durations in abstract
integral units; `streamID` is the Go `int32`, modelled as `Int`). -/
structure SubscriberConfig where
  aeronDir : String
  channel : String
  streamID : Int
  driverTimeout : Nat
  fragmentLimit : Int
  idleStrategy : String
  idleSleepDuration : Nat
  deriving DecidableEq, Repr

/-- `Init()`: fill in the defaults for zero values, then validate that
`channel` is nonempty and `stream_id` is non-negative.  The idle-strategy
name is not inspected beyond the empty-string default. -/
def subInit (c : SubscriberConfig) : Except String SubscriberConfig :=
  let c := if c.driverTimeout = 0 then { c with driverTimeout := 30000000000 } else c
  let c := if c.fragmentLimit = 0 then { c with fragmentLimit := 10 } else c
  let c := if c.idleStrategy = "" then { c with idleStrategy := "backoff" } else c
  let c := if c.idleSleepDuration = 0 then { c with idleSleepDuration := 1000000 } else c
  if c.channel = "" then .error "channel is required"
  else if c.streamID < 0 then .error "stream_id must be non-negative"
  else .ok c

/-- The idle strategies `createIdleStrategy` can construct. -/
inductive Idler where
  | sleeping (sleepFor : Nat)
  | yielding
  | busy
  | backoff
  deriving DecidableEq, Repr

/-- `createIdleStrategy()`: dispatch on the configured strategy name; an
unrecognized name is an error. -/
def createIdleStrategy (c : SubscriberConfig) : Except String Idler :=
  match c.idleStrategy with
  | "sleeping" => .ok (.sleeping c.idleSleepDuration)
  | "yielding" => .ok .yielding
  | "busy" => .ok .busy
  | "backoff" => .ok .backoff
  | s => .error ("unknown idle strategy: " ++ s)

/-- The first thing `consume` does is call `createIdleStrategy`; on error it
logs and returns before entering the polling loop.  `consumeStartup` is that
prefix of `consume`: `some e` means the consumption goroutine exited with
the logged error `e` without ever polling. -/
def consumeStartup (c : SubscriberConfig) : Option String :=
  match createIdleStrategy c with
  | .error e => some e
  | .ok _ => none

/-- The mutable internal state of an `AeronSubscriber`.  An accumulator
reference is modelled by a `Nat` identifier; `none` is a nil Go field. -/
structure SubscriberState where
  currentAccumulator : Option Nat
  cancel : Option Unit
  wgCount : Option Nat
  deriving DecidableEq, Repr

/-- A zero-value `AeronSubscriber`: every internal reference field is nil. -/
def freshSubscriber : SubscriberState := ⟨none, none, none⟩

/-- The state updates `Start(acc)` performs on a successful connect: it
stores a cancel function and a wait group and launches the `consume`
goroutine with `acc`.  Neither `Start` nor `consume` ever writes
`currentAccumulator`; the accumulator argument is not stored anywhere the
fragment handler can see. -/
def startGo (s : SubscriberState) (_acc : Nat) : SubscriberState :=
  { s with cancel := some (), wgCount := some 1 }

/-- The body of the closure returned by `createFragmentHandler`, applied to
a reassembled payload: parse it, and on success add every parsed metric to
`getAccumulator()` — which returns `currentAccumulator` — if that is
non-nil.  The result is the list of `(accumulator, metric)` deliveries the
handler performs (empty on parse failure or nil accumulator). -/
def fragmentHandlerDeliver (s : SubscriberState)
    (parsed : Except String (List Nat)) : List (Nat × Nat) :=
  match parsed with
  | .error _ => []
  | .ok metrics =>
    match s.currentAccumulator with
    | none => []
    | some acc => metrics.map (fun m => (acc, m))

/-- Invoking a nil Go function or dereferencing a nil pointer panics. -/
def callRef {α : Type} : Option α → Except String α
  | none => .error "invalid memory address or nil pointer dereference"
  | some a => .ok a

/-- What `Stop` did: whether it invoked the cancel function and whether it
waited on the wait group. -/
structure StopEffects where
  cancelled : Bool
  waited : Bool
  deriving DecidableEq, Repr

/-- `Stop()`: `if a.cancel != nil { a.cancel() }` then
`if a.wg != nil { a.wg.Wait() }`; each call is guarded by a nil check, and
an unguarded call on nil would panic (`callRef`). -/
def stopGo (s : SubscriberState) : Except String StopEffects := do
  let cancelled ←
    if s.cancel.isSome then (callRef s.cancel).map (fun _ => true)
    else pure false
  let waited ←
    if s.wgCount.isSome then (callRef s.wgCount).map (fun _ => true)
    else pure false
  pure ⟨cancelled, waited⟩

/-! ## aeron_stat: counter classification -/

/-- `parseCounterType(typeId)`: the `switch typeId` over the known Aeron
counter type IDs, with `fmt.Sprintf("unknown_%d", typeId)` as the default
branch.  Go's `switch` on an integer is a sequence of equality tests. -/
def parseCounterType (typeId : Int) : String :=
  if typeId = 0 then "system_counter"
  else if typeId = 1 then "bytes_sent"
  else if typeId = 2 then "bytes_received"
  else if typeId = 3 then "failed_offers"
  else if typeId = 4 then "nak_messages_sent"
  else if typeId = 5 then "nak_messages_received"
  else if typeId = 6 then "status_messages_sent"
  else if typeId = 7 then "status_messages_received"
  else if typeId = 8 then "heartbeats_sent"
  else if typeId = 9 then "heartbeats_received"
  else if typeId = 10 then "retransmits_sent"
  else if typeId = 11 then "flow_control_under_runs"
  else if typeId = 12 then "flow_control_over_runs"
  else if typeId = 13 then "invalid_packets"
  else if typeId = 14 then "errors"
  else if typeId = 15 then "short_sends"
  else if typeId = 16 then "free_fails"
  else if typeId = 17 then "sender_flow_control_limits"
  else if typeId = 18 then "unblocked_publications"
  else if typeId = 19 then "unblocked_control_commands"
  else if typeId = 20 then "possible_ttl_asymmetry"
  else if typeId = 21 then "reception_rate"
  else if typeId = 22 then "sender_bpe"
  else if typeId = 23 then "receiver_hwm"
  else if typeId = 24 then "receiver_pos"
  else if typeId = 25 then "sender_pos"
  else if typeId = 26 then "sender_limit"
  else if typeId = 27 then "per_image_type_id"
  else if typeId = 28 then "publication_limit"
  else if typeId = 29 then "sender_bpe_manual"
  else if typeId = 30 then "subscription_pos"
  else if typeId = 31 then "stream_pos"
  else if typeId = 32 then "publisher_pos"
  else if typeId = 33 then "publisher_limit"
  else if typeId = 34 then "client_heartbeat"
  else if typeId = 35 then "client_keepalive"
  else "unknown_" ++ toString typeId

/-- `getMeasurementName(typeId, counterType)`: the `switch` over numeric
ranges of `typeId`.  The `counterType` argument is accepted but never
read by any branch. -/
def getMeasurementName (typeId : Int) (_counterType : String) : String :=
  if 1 ≤ typeId ∧ typeId ≤ 2 then "aeron_bytes"
  else if 4 ≤ typeId ∧ typeId ≤ 10 then "aeron_messages"
  else if 11 ≤ typeId ∧ typeId ≤ 20 then "aeron_flow_control"
  else if 21 ≤ typeId ∧ typeId ≤ 26 then "aeron_positions"
  else if 27 ≤ typeId ∧ typeId ≤ 33 then "aeron_streams"
  else if 34 ≤ typeId ∧ typeId ≤ 35 then "aeron_clients"
  else if typeId = 0 then "aeron_system"
  else "aeron_counter"

/-- The bucket table of the specification (§4.1), written from the spec's
range table for comparison with `getMeasurementName` (the spec's bucket
names `bytes`, `messages`, … are the measurement names with the plugin's
`aeron_` prefix). -/
def specBucketFor (typeId : Int) : String :=
  if 1 ≤ typeId ∧ typeId ≤ 2 then "aeron_bytes"
  else if 4 ≤ typeId ∧ typeId ≤ 10 then "aeron_messages"
  else if 11 ≤ typeId ∧ typeId ≤ 20 then "aeron_flow_control"
  else if 21 ≤ typeId ∧ typeId ≤ 26 then "aeron_positions"
  else if 27 ≤ typeId ∧ typeId ≤ 33 then "aeron_streams"
  else if 34 ≤ typeId ∧ typeId ≤ 35 then "aeron_clients"
  else if typeId = 0 then "aeron_system"
  else "aeron_counter"

/-- The fixed enumeration of measurement buckets (§4.1). -/
def bucketEnum : List String :=
  ["aeron_bytes", "aeron_messages", "aeron_flow_control", "aeron_positions",
   "aeron_streams", "aeron_clients", "aeron_system", "aeron_counter"]

/-! ## aeron_stat: label parsing

Strings are `List Char` here so that the index arithmetic of the source
(`strings.Index` positions plus fixed pattern lengths, and slicing) is
explicit.  All searched-for patterns are ASCII, so on any valid UTF-8 label
the byte positions used by the source and the char positions used here
correspond one-to-one. -/

/-- `pat` is a prefix of `l`. -/
def isPrefixOfCL : List Char → List Char → Bool
  | [], _ => true
  | _ :: _, [] => false
  | a :: as, b :: bs => a = b && isPrefixOfCL as bs

/-- `strings.Index(hay, pat)` as an `Option`: position of the first
occurrence of `pat` in `hay` (`none` is Go's `-1`;
`strings.Contains(hay, pat)` is `(indexOfSub pat hay).isSome`). -/
def indexOfSub (pat : List Char) : List Char → Option Nat
  | [] => if isPrefixOfCL pat [] then some 0 else none
  | c :: t =>
    if isPrefixOfCL pat (c :: t) then some 0
    else (indexOfSub pat t).map (· + 1)

/-- One digit of a base-10 numeral. -/
def digitVal (c : Char) : Option Nat :=
  if '0' ≤ c ∧ c ≤ '9' then some (c.toNat - '0'.toNat) else none

/-- Parse a nonempty all-digit string as a `Nat`. -/
def parseDigits (s : List Char) : Option Nat :=
  match s with
  | [] => none
  | _ =>
    s.foldl
      (fun acc c =>
        match acc, digitVal c with
        | some n, some d => some (n * 10 + d)
        | _, _ => none)
      (some 0)

/-- `strconv.ParseInt(s, 10, 64)` as an `Option Int`: optional sign, then
a nonempty run of digits, with the 64-bit range check (out-of-range input
is an error, hence `none`). -/
def parseIntGo (s : List Char) : Option Int :=
  let signed : Option Int :=
    match s with
    | '+' :: rest => (parseDigits rest).map (Int.ofNat ·)
    | '-' :: rest => (parseDigits rest).map (fun n => -(Int.ofNat n))
    | _ => (parseDigits s).map (Int.ofNat ·)
  match signed with
  | some n => if -(2 ^ 63) ≤ n ∧ n < 2 ^ 63 then some n else none
  | none => none

/-- A telegraf field value as produced by this plugin. -/
inductive FieldVal where
  | int (i : Int)
  | str (s : List Char)
  deriving DecidableEq, Repr

/-- The `ParsedLabel` struct: tag and field maps built by successive
insertions, modelled as insertion-ordered association lists (each key is
inserted at most once in `parseCounterLabel`, so plain append is the map
insert here). -/
structure ParsedLabel where
  tags : List (String × List Char)
  fields : List (String × FieldVal)
  deriving DecidableEq, Repr

/-- The channel/endpoint extraction of `parseCounterLabel`: if the label
contains `"aeron:"`, the channel tag runs from there to the next space (the
truncation applies only when `spaceIdx > 0`, as in the source) or to the end
of the label; if the channel part contains `"endpoint="`, the endpoint tag
runs from after that marker to the next `&` or the end of the channel
part. -/
def channelTags (label : List Char) : List (String × List Char) :=
  match indexOfSub "aeron:".data label with
  | none => []
  | some idx =>
    let channelPart0 := label.drop idx
    let channelPart :=
      match indexOfSub [' '] channelPart0 with
      | some spaceIdx => if spaceIdx > 0 then channelPart0.take spaceIdx else channelPart0
      | none => channelPart0
    let base := [("channel", channelPart)]
    match indexOfSub "endpoint=".data channelPart with
    | none => base
    | some i =>
      let rest := channelPart.drop (i + 9)
      let endpointEnd :=
        match indexOfSub ['&'] rest with
        | some e => e
        | none => rest.length
      base ++ [("endpoint", rest.take endpointEnd)]

/-- The `"<marker>="`-to-integer extraction shared by the stream-id and
session-id scans: text after the marker up to the next space or the end of
the label, parsed with `strconv.ParseInt`; a parse failure yields no
field. -/
def numericField (marker : List Char) (label : List Char) : Option Int :=
  match indexOfSub marker label with
  | none => none
  | some i =>
    let s := label.drop (i + marker.length)
    let e :=
      match indexOfSub [' '] s with
      | some e => e
      | none => s.length
    parseIntGo (s.take e)

/-- `parseCounterLabel(label)`: always store the original label in
`fields["label"]`; then the three independent substring scans over the full
label (channel/endpoint tags, `stream_id` field, `session_id` field). -/
def parseCounterLabel (label : List Char) : ParsedLabel :=
  { tags := channelTags label
    fields :=
      ("label", .str label) ::
        ((numericField "stream-id=".data label).map
          (fun n => ("stream_id", FieldVal.int n))).toList ++
        ((numericField "session-id=".data label).map
          (fun n => ("session_id", FieldVal.int n))).toList }

/-! ## aeron_stat: counter collection -/

/-- One counter observation from the CnC counter source. -/
structure Counter where
  id : Int
  typeId : Int
  value : Int
  label : List Char
  deriving DecidableEq, Repr

/-- One record handed to the accumulator by `acc.AddFields`. -/
structure Metric where
  measurement : String
  tags : List (String × List Char)
  fields : List (String × FieldVal)
  deriving DecidableEq, Repr

/-- Insert-or-replace into a Go map modelled as an association list. -/
def mapInsert {α : Type} (m : List (String × α)) (k : String) (v : α) :
    List (String × α) :=
  if m.any (fun p => p.1 = k) then
    m.map (fun p => if p.1 = k then (k, v) else p)
  else m ++ [(k, v)]

/-- Fold a list of key/value pairs into a map with `mapInsert`. -/
def mapInsertAll {α : Type} (m : List (String × α)) (kvs : List (String × α)) :
    List (String × α) :=
  kvs.foldl (fun acc kv => mapInsert acc kv.1 kv.2) m

/-- The `Scan` callback body of `collectCounters` for one counter: build the
tag map (configured tags, then `counter_id`, `type_id`, the counter type if
nonempty, then the parsed-label tags), the field map (`value`, then the
parsed-label fields), pick the measurement via `getMeasurementName`, and
emit the record. -/
def recordFor (staticTags : List (String × List Char)) (c : Counter) : Metric :=
  let counterType := parseCounterType c.typeId
  let tags := mapInsert staticTags "counter_id" (toString c.id).data
  let tags := mapInsert tags "type_id" (toString c.typeId).data
  let tags := if counterType ≠ "" then mapInsert tags "counter_type" counterType.data else tags
  let parsed := parseCounterLabel c.label
  let tags := mapInsertAll tags parsed.tags
  let fields := mapInsertAll [("value", FieldVal.int c.value)] parsed.fields
  { measurement := getMeasurementName c.typeId counterType
    tags := tags
    fields := fields }

/-- The summary record emitted after the scan. -/
def summaryMetric (staticTags : List (String × List Char)) (n : Nat) : Metric :=
  { measurement := "aeron_stat_summary"
    tags := staticTags
    fields := [("total_counters", FieldVal.int n)] }

/-- `collectCounters(acc)`: error when the reader is nil; otherwise scan
every counter of the source once, emitting one record per counter, then
emit exactly one summary record carrying the count of counters scanned.
The counter source is modelled as the list of counters the reader's `Scan`
yields. -/
def collectCounters (staticTags : List (String × List Char))
    (reader : Option (List Counter)) : Except String (List Metric) :=
  match reader with
  | none => .error "counter reader not initialized"
  | some cs => .ok (cs.map (recordFor staticTags) ++ [summaryMetric staticTags cs.length])

/-! ## Helper lemmas -/

theorem unknown_append_ne_empty (s : String) : "unknown_" ++ s ≠ "" := by
  intro h
  have h2 := congrArg String.length h
  rw [String.length_append] at h2
  have h8 : ("unknown_" : String).length = 8 := rfl
  have h0 : ("" : String).length = 0 := rfl
  omega

theorem isPrefixOfCL_length {p h : List Char} (hp : isPrefixOfCL p h = true) :
    p.length ≤ h.length := by
  induction p generalizing h with
  | nil => simp
  | cons a as ih =>
    cases h with
    | nil => simp [isPrefixOfCL] at hp
    | cons b bs =>
      simp only [isPrefixOfCL, Bool.and_eq_true] at hp
      simpa using ih hp.2

theorem indexOfSub_bound {pat hay : List Char} {i : Nat}
    (h : indexOfSub pat hay = some i) : i + pat.length ≤ hay.length := by
  induction hay generalizing i with
  | nil =>
    simp only [indexOfSub] at h
    split at h
    · rename_i hp
      cases pat with
      | nil => simp_all
      | cons c cs => simp [isPrefixOfCL] at hp
    · exact absurd h (by simp)
  | cons c t ih =>
    simp only [indexOfSub] at h
    split at h
    · rename_i hp
      obtain rfl : i = 0 := by simpa using h.symm
      simpa using isPrefixOfCL_length hp
    · rcases Option.map_eq_some'.mp h with ⟨j, hj, rfl⟩
      have := ih hj
      simp only [List.length_cons]
      omega

theorem getMeasurementName_mem_bucketEnum (t : Int) (k : String) :
    getMeasurementName t k ∈ bucketEnum := by
  unfold getMeasurementName
  split_ifs <;> simp [bucketEnum]

theorem getMeasurementName_ne_summary (t : Int) (k : String) :
    getMeasurementName t k ≠ "aeron_stat_summary" := by
  unfold getMeasurementName
  split_ifs <;> decide

theorem le_nextDelay {cfg : PublisherCfg} {delay : Nat}
    (hm : cfg.backoffDen ≤ cfg.backoffNum) (hd : 0 < cfg.backoffDen)
    (hdm : delay ≤ cfg.maxRetryDelay) : delay ≤ nextDelay cfg delay := by
  refine le_min ?_ hdm
  rw [Nat.le_div_iff_mul_le hd]
  exact Nat.mul_le_mul_left delay hm

/-- Invariant of the retry loop: starting an iteration with a current delay
within the cap (and a backoff multiplier ≥ 1), every sleep the remaining
iterations perform is at least the current delay and at most the cap, and
the sleep sequence is non-decreasing. -/
theorem publishIter_sleeps_bounded (cfg : PublisherCfg) (results : Nat → Int)
    (hm : cfg.backoffDen ≤ cfg.backoffNum) (hd : 0 < cfg.backoffDen) :
    ∀ (fuel attempt delay : Nat) (lastErr : Option PubError),
      delay ≤ cfg.maxRetryDelay →
      (∀ x ∈ (publishIter cfg results fuel attempt delay lastErr).sleeps,
          delay ≤ x ∧ x ≤ cfg.maxRetryDelay) ∧
      List.Chain' (· ≤ ·) (publishIter cfg results fuel attempt delay lastErr).sleeps := by
  intro fuel
  induction fuel with
  | zero =>
    intro attempt delay lastErr hdm
    simp [publishIter]
  | succ fuel ih =>
    intro attempt delay lastErr hdm
    have hnext_le : nextDelay cfg delay ≤ cfg.maxRetryDelay := min_le_right _ _
    have hle_next : delay ≤ nextDelay cfg delay := le_nextDelay hm hd hdm
    simp only [publishIter]
    split_ifs with ha
    · -- attempt = 0: no sleep this iteration, delay unchanged
      cases hc : classify (results attempt) with
      | ok => simp [hc]
      | terminalClosed => simp [hc]
      | retryable e =>
        simp only [hc]
        exact ih (attempt + 1) delay (some e) hdm
    · -- attempt > 0: this iteration sleeps `delay`, then escalates
      cases hc : classify (results attempt) with
      | ok => simp [hc, hdm]
      | terminalClosed => simp [hc, hdm]
      | retryable e =>
        simp only [hc]
        obtain ⟨hmem, hchain⟩ := ih (attempt + 1) (nextDelay cfg delay) (some e) hnext_le
        constructor
        · intro x hx
          rcases List.mem_cons.mp hx with rfl | hx
          · exact ⟨le_refl _, hdm⟩
          · exact ⟨le_trans hle_next (hmem x hx).1, (hmem x hx).2⟩
        · refine List.chain'_cons'.mpr ⟨?_, hchain⟩
          intro b hb
          exact le_trans hle_next (hmem b (List.mem_of_mem_head? hb)).1

/-! ## Claim theorems -/

/-- C1: the claim states that after `Start(acc)` every successfully parsed
metric of a completed message is forwarded to `acc`.  The code violates
this: `Start` (and `consume`) never store the accumulator in
`currentAccumulator`, which is the only reference `getAccumulator()` — and
hence the fragment handler — reads; so after a plain `Init`/`Start` the
handler's accumulator is nil and every parsed metric is silently dropped.
This theorem evaluates the model at the failing input: a fresh subscriber,
`Start` with accumulator 7, and a completed message parsing to the single
metric 42 — nothing is delivered. -/
theorem start_does_not_register_accumulator :
    (startGo freshSubscriber 7).currentAccumulator = none
    ∧ fragmentHandlerDeliver (startGo freshSubscriber 7) (.ok [42]) = [] :=
  ⟨rfl, rfl⟩

/-- C10: `Stop` on a subscriber that was never started (nil cancel function
and nil wait group) returns normally — no panic, no cancellation, no
waiting. -/
theorem stop_not_started_returns_normally :
    stopGo freshSubscriber = .ok ⟨false, false⟩ := rfl

/-- C2: with `maxRetries = 3` (and any delays/backoff settings), three
backpressured offers followed by a success make `publishMessage` succeed
with exactly 3 retry-counter increments; four backpressured offers exhaust
the retries and return the exhausted-retries error wrapping the last
(backpressure) condition; and a publication-closed result on the first
offer returns the terminal closed error immediately, with no retry and no
sleep. -/
theorem publishMessage_maxRetries_three_scenarios (rd mn md mx : Nat) (ms : Int) :
    ((publishMessage ⟨3, rd, mn, md, mx, ms⟩
        (fun i => if i < 3 then BackPressured else 17)).outcome = .success
      ∧ (publishMessage ⟨3, rd, mn, md, mx, ms⟩
          (fun i => if i < 3 then BackPressured else 17)).retries = 3)
    ∧ ((publishMessage ⟨3, rd, mn, md, mx, ms⟩ (fun _ => BackPressured)).outcome
        = .exhaustedError (some .backpressure)
      ∧ (publishMessage ⟨3, rd, mn, md, mx, ms⟩ (fun _ => BackPressured)).retries = 3)
    ∧ publishMessage ⟨3, rd, mn, md, mx, ms⟩ (fun _ => PublicationClosed)
        = ⟨.closedError, 0, []⟩ := by
  refine ⟨⟨?_, ?_⟩, ⟨?_, ?_⟩, ?_⟩ <;>
    simp [publishMessage, publishIter, classify, BackPressured, NotConnected, AdminAction,
      PublicationClosed]

/-- C7: for every `typeId` and every kind string, `getMeasurementName`
returns exactly the bucket the §4.1 range table assigns to `typeId`
(`specBucketFor`, written from the spec's table), which is always one of
the fixed eight-bucket enumeration; the kind string argument never
influences the result. -/
theorem getMeasurementName_bucket_table (typeId : Int) (kind : String) :
    getMeasurementName typeId kind = specBucketFor typeId
    ∧ specBucketFor typeId ∈ bucketEnum := by
  refine ⟨rfl, ?_⟩
  unfold specBucketFor
  split_ifs <;> simp [bucketEnum]

/-- C5 (amended): provided the configured initial retry delay does not
exceed the configured maximum retry delay and the backoff multiplier is at
least 1, the sleep sequence of a `publishMessage` call is monotonically
non-decreasing and never exceeds the maximum retry delay.  (Without those
provisos the claim fails: see the counterexample.) -/
theorem publish_sleeps_monotone_capped (cfg : PublisherCfg) (results : Nat → Int)
    (h0 : cfg.retryDelay ≤ cfg.maxRetryDelay)
    (hm : cfg.backoffDen ≤ cfg.backoffNum) (hd : 0 < cfg.backoffDen) :
    List.Chain' (· ≤ ·) (publishMessage cfg results).sleeps
    ∧ ∀ x ∈ (publishMessage cfg results).sleeps, x ≤ cfg.maxRetryDelay := by
  obtain ⟨hmem, hchain⟩ :=
    publishIter_sleeps_bounded cfg results hm hd (cfg.maxRetries + 1) 0 cfg.retryDelay none h0
  exact ⟨hchain, fun x hx => (hmem x hx).2⟩

/-- Witness for the amended C5 theorem at the default-like configuration
(maxRetries 3, initial delay 1, multiplier 2, cap 100) under sustained
backpressure. -/
theorem publish_sleeps_monotone_capped_witness :
    List.Chain' (· ≤ ·)
        (publishMessage ⟨3, 1, 2, 1, 100, 0⟩ (fun _ => BackPressured)).sleeps
    ∧ ∀ x ∈ (publishMessage ⟨3, 1, 2, 1, 100, 0⟩ (fun _ => BackPressured)).sleeps,
        x ≤ 100 :=
  publish_sleeps_monotone_capped ⟨3, 1, 2, 1, 100, 0⟩ (fun _ => BackPressured)
    (by decide) (by decide) (by decide)

/-- C5 counterexample: the claim as stated fails on the code.  The first
sleep is the unclamped initial delay, so with `retry_delay = 200 >
max_retry_delay = 100` the sleep sequence under sustained backpressure is
`[200, 100, 100]` — decreasing and exceeding the configured maximum; and
with a backoff multiplier below 1 (here 1/2) the sequence `[100, 50, 25]`
is decreasing even though every sleep is below the cap. -/
theorem publish_sleeps_counterexample :
    ((publishMessage ⟨3, 200, 2, 1, 100, 0⟩ (fun _ => BackPressured)).sleeps
        = [200, 100, 100]
      ∧ ¬ List.Chain' (· ≤ ·)
          (publishMessage ⟨3, 200, 2, 1, 100, 0⟩ (fun _ => BackPressured)).sleeps
      ∧ ¬ (∀ x ∈ (publishMessage ⟨3, 200, 2, 1, 100, 0⟩ (fun _ => BackPressured)).sleeps,
            x ≤ 100))
    ∧ ((publishMessage ⟨3, 100, 1, 2, 1000, 0⟩ (fun _ => BackPressured)).sleeps
        = [100, 50, 25]
      ∧ ¬ List.Chain' (· ≤ ·)
          (publishMessage ⟨3, 100, 1, 2, 1000, 0⟩ (fun _ => BackPressured)).sleeps) := by
  refine ⟨⟨by decide, ?_, by decide⟩, by decide, ?_⟩
  · intro h
    rw [show (publishMessage ⟨3, 200, 2, 1, 100, 0⟩ (fun _ => BackPressured)).sleeps
        = [200, 100, 100] from by decide] at h
    simp [List.chain'_cons] at h
  · intro h
    rw [show (publishMessage ⟨3, 100, 1, 2, 1000, 0⟩ (fun _ => BackPressured)).sleeps
        = [100, 50, 25] from by decide] at h
    simp [List.chain'_cons] at h

/-- C3 counterexample: the claim ("an unknown idle-strategy name makes
construction/initialization fail, and the error cannot first surface at
poll time") is false on the code.  With the unknown strategy name
`"invalid"` and otherwise valid configuration, `Init` succeeds (it never
inspects the strategy name), and the strategy error surfaces only when the
consume goroutine starts after `Start`, where it is logged and the
goroutine exits. -/
theorem init_accepts_unknown_idle_strategy :
    subInit ⟨"", "aeron:ipc", 42, 0, 0, "invalid", 0⟩
        = .ok ⟨"", "aeron:ipc", 42, 30000000000, 10, "invalid", 1000000⟩
    ∧ consumeStartup ⟨"", "aeron:ipc", 42, 30000000000, 10, "invalid", 1000000⟩
        = some "unknown idle strategy: invalid" :=
  ⟨rfl, rfl⟩

/-- C3 (amended): `Init` succeeds for every configuration with a nonempty
channel and non-negative stream id regardless of the idle-strategy name
(only applying the empty-string default); an idle-strategy name outside
{sleeping, yielding, busy, backoff} is rejected by `createIdleStrategy`,
invoked at the start of the `consume` goroutine (i.e. after a successful
`Init` and `Start`), where its error is logged and consumption stops before
any poll. -/
theorem unknown_idle_strategy_surfaces_in_consume (c : SubscriberConfig)
    (hch : c.channel ≠ "") (hsid : 0 ≤ c.streamID) :
    (∃ c', subInit c = .ok c'
        ∧ c'.idleStrategy = (if c.idleStrategy = "" then "backoff" else c.idleStrategy))
    ∧ (c.idleStrategy ∉ ["sleeping", "yielding", "busy", "backoff"] →
        consumeStartup c = some ("unknown idle strategy: " ++ c.idleStrategy)) := by
  constructor
  · simp only [subInit]
    split_ifs <;> simp_all <;> omega
  · intro h
    simp only [consumeStartup, createIdleStrategy]
    split <;> simp_all

/-- Witness for the amended C3 theorem at a concrete configuration with the
unknown strategy name `"bogus"`. -/
theorem unknown_idle_strategy_surfaces_in_consume_witness :
    (∃ c', subInit ⟨"/tmp/aeron", "aeron:udp?endpoint=localhost:40123", 1001, 0, 0, "bogus", 0⟩
        = .ok c' ∧ c'.idleStrategy
          = (if ("bogus" : String) = "" then "backoff" else "bogus"))
    ∧ consumeStartup ⟨"/tmp/aeron", "aeron:udp?endpoint=localhost:40123", 1001, 0, 0, "bogus", 0⟩
        = some ("unknown idle strategy: " ++ "bogus") :=
  ⟨(unknown_idle_strategy_surfaces_in_consume _ (by decide) (by decide)).1,
   (unknown_idle_strategy_surfaces_in_consume _ (by decide) (by decide)).2 (by decide)⟩

/-- C4 counterexample: the claim says an oversized payload makes the
publish call "fail immediately with a size-exceeded error reported to the
caller".  The code does not report any error to the caller: with
`max_message_size = 10` and one metric serializing to 11 bytes, `Write`
increments the dropped counter, attempts no offer — and returns nil. -/
theorem write_oversized_counterexample :
    writeGo ⟨3, 1, 2, 1, 100, 10⟩ true true true
        [(Except.ok (List.replicate 11 0), fun _ => 17)]
      = ⟨none, 0, 1, 0, 0, []⟩ := by
  decide

/-- C4 (amended): when a positive maximum message size is configured and a
metric's serialized length exceeds it, `Write` increments the
dropped-message counter, attempts no transport offer for that payload, logs
a warning, and continues with the remaining metrics; the batch's effects
are exactly those of the batch without the oversized metric plus one
dropped count — in particular no size-exceeded error is returned to the
caller. -/
theorem write_oversized_drops_without_offer (cfg : PublisherCfg)
    (data : List Nat) (res : Nat → Int) (rest : List WriteItem)
    (hpos : 0 < cfg.maxMessageSize) (hlen : cfg.maxMessageSize < (data.length : Int)) :
    writeGo cfg true true true ((Except.ok data, res) :: rest)
      = { writeGo cfg true true true rest with
          dropped := (writeGo cfg true true true rest).dropped + 1 } := by
  simp [writeGo, processMetrics, hpos, hlen]

/-- Witness for the amended C4 theorem: one 11-byte payload against a
10-byte limit. -/
theorem write_oversized_drops_without_offer_witness :
    writeGo ⟨3, 1, 2, 1, 100, 10⟩ true true true
        [(Except.ok (List.replicate 11 0), fun _ => 17)]
      = { writeGo ⟨3, 1, 2, 1, 100, 10⟩ true true true [] with
          dropped := (writeGo ⟨3, 1, 2, 1, 100, 10⟩ true true true []).dropped + 1 } :=
  write_oversized_drops_without_offer ⟨3, 1, 2, 1, 100, 10⟩ (List.replicate 11 0)
    (fun _ => 17) [] (by decide) (by decide)

/-- C6: a collection cycle over any counter source yielding N counters
emits exactly N per-counter records plus exactly one record in measurement
`aeron_stat_summary` (the last one emitted), whose `total_counters` field
equals N. -/
theorem collectCounters_counts (staticTags : List (String × List Char)) (cs : List Counter) :
    ∃ ms, collectCounters staticTags (some cs) = .ok ms
      ∧ ms.length = cs.length + 1
      ∧ ms.countP (fun m => m.measurement == "aeron_stat_summary") = 1
      ∧ ms.getLast? = some (summaryMetric staticTags cs.length)
      ∧ (summaryMetric staticTags cs.length).fields.lookup "total_counters"
          = some (.int cs.length) := by
  refine ⟨_, rfl, by simp [collectCounters], ?_, List.getLast?_concat _, rfl⟩
  have hz : (cs.map (recordFor staticTags)).countP
      (fun m => m.measurement == "aeron_stat_summary") = 0 := by
    rw [List.countP_eq_zero]
    intro m hm
    obtain ⟨c, _, rfl⟩ := List.mem_map.mp hm
    simpa [recordFor] using getMeasurementName_ne_summary c.typeId (parseCounterType c.typeId)
  simp [List.countP_append, hz, summaryMetric]

/-- Every `typeId` outside the switch table falls through to the
`fmt.Sprintf("unknown_%d", typeId)` default branch. -/
theorem parseCounterType_unknown (t : Int) (h : t < 0 ∨ 35 < t) :
    parseCounterType t = "unknown_" ++ toString t := by
  simp only [parseCounterType, if_neg (show t ≠ (0 : Int) by omega), if_neg (show t ≠ (1 : Int) by omega), if_neg (show t ≠ (2 : Int) by omega), if_neg (show t ≠ (3 : Int) by omega), if_neg (show t ≠ (4 : Int) by omega), if_neg (show t ≠ (5 : Int) by omega), if_neg (show t ≠ (6 : Int) by omega), if_neg (show t ≠ (7 : Int) by omega), if_neg (show t ≠ (8 : Int) by omega), if_neg (show t ≠ (9 : Int) by omega), if_neg (show t ≠ (10 : Int) by omega), if_neg (show t ≠ (11 : Int) by omega), if_neg (show t ≠ (12 : Int) by omega), if_neg (show t ≠ (13 : Int) by omega), if_neg (show t ≠ (14 : Int) by omega), if_neg (show t ≠ (15 : Int) by omega), if_neg (show t ≠ (16 : Int) by omega), if_neg (show t ≠ (17 : Int) by omega), if_neg (show t ≠ (18 : Int) by omega), if_neg (show t ≠ (19 : Int) by omega), if_neg (show t ≠ (20 : Int) by omega), if_neg (show t ≠ (21 : Int) by omega), if_neg (show t ≠ (22 : Int) by omega), if_neg (show t ≠ (23 : Int) by omega), if_neg (show t ≠ (24 : Int) by omega), if_neg (show t ≠ (25 : Int) by omega), if_neg (show t ≠ (26 : Int) by omega), if_neg (show t ≠ (27 : Int) by omega), if_neg (show t ≠ (28 : Int) by omega), if_neg (show t ≠ (29 : Int) by omega), if_neg (show t ≠ (30 : Int) by omega), if_neg (show t ≠ (31 : Int) by omega), if_neg (show t ≠ (32 : Int) by omega), if_neg (show t ≠ (33 : Int) by omega), if_neg (show t ≠ (34 : Int) by omega), if_neg (show t ≠ (35 : Int) by omega)]

/-- C8: `parseCounterType` is total and never returns the empty string;
every `typeId` in the documented table (0–35) returns its documented kind
name, and every `typeId` outside the table returns exactly
`"unknown_<typeId>"` rather than an error or an empty string. -/
theorem parseCounterType_total_table :
    (∀ typeId : Int, parseCounterType typeId ≠ ""
      ∧ ((typeId < 0 ∨ 35 < typeId) →
          parseCounterType typeId = "unknown_" ++ toString typeId))
    ∧ (parseCounterType 0 = "system_counter" ∧ parseCounterType 1 = "bytes_sent"
      ∧ parseCounterType 2 = "bytes_received" ∧ parseCounterType 3 = "failed_offers"
      ∧ parseCounterType 4 = "nak_messages_sent" ∧ parseCounterType 5 = "nak_messages_received"
      ∧ parseCounterType 6 = "status_messages_sent" ∧ parseCounterType 7 = "status_messages_received"
      ∧ parseCounterType 8 = "heartbeats_sent" ∧ parseCounterType 9 = "heartbeats_received"
      ∧ parseCounterType 10 = "retransmits_sent" ∧ parseCounterType 11 = "flow_control_under_runs"
      ∧ parseCounterType 12 = "flow_control_over_runs" ∧ parseCounterType 13 = "invalid_packets"
      ∧ parseCounterType 14 = "errors" ∧ parseCounterType 15 = "short_sends"
      ∧ parseCounterType 16 = "free_fails" ∧ parseCounterType 17 = "sender_flow_control_limits"
      ∧ parseCounterType 18 = "unblocked_publications" ∧ parseCounterType 19 = "unblocked_control_commands"
      ∧ parseCounterType 20 = "possible_ttl_asymmetry" ∧ parseCounterType 21 = "reception_rate"
      ∧ parseCounterType 22 = "sender_bpe" ∧ parseCounterType 23 = "receiver_hwm"
      ∧ parseCounterType 24 = "receiver_pos" ∧ parseCounterType 25 = "sender_pos"
      ∧ parseCounterType 26 = "sender_limit" ∧ parseCounterType 27 = "per_image_type_id"
      ∧ parseCounterType 28 = "publication_limit" ∧ parseCounterType 29 = "sender_bpe_manual"
      ∧ parseCounterType 30 = "subscription_pos" ∧ parseCounterType 31 = "stream_pos"
      ∧ parseCounterType 32 = "publisher_pos" ∧ parseCounterType 33 = "publisher_limit"
      ∧ parseCounterType 34 = "client_heartbeat" ∧ parseCounterType 35 = "client_keepalive") := by
  constructor
  · intro t
    by_cases ht : 0 ≤ t ∧ t ≤ 35
    · obtain ⟨h1, h2⟩ := ht
      constructor
      · interval_cases t <;> decide
      · intro h
        omega
    · have h : t < 0 ∨ 35 < t := by omega
      rw [parseCounterType_unknown t h]
      exact ⟨unknown_append_ne_empty _, fun _ => rfl⟩
  · decide

/-- Witness for the C8 theorem at the out-of-table `typeId` 36. -/
theorem parseCounterType_total_table_witness :
    parseCounterType 36 ≠ "" ∧ parseCounterType 36 = "unknown_" ++ toString (36 : Int) :=
  ⟨(parseCounterType_total_table.1 36).1,
   (parseCounterType_total_table.1 36).2 (by decide)⟩

/-- C9: `parseCounterLabel` always stores the original label under the
`label` field; the `stream_id` and `session_id` fields are present exactly
when the corresponding marker scan finds a numeric value (a missing,
truncated or non-numeric pattern only omits the field); the `channel` tag
is present exactly when the label contains `"aeron:"`; and every slice
start position the source computes (match position plus ASCII pattern
length) is within the label, so no access is out of range.  (Totality for
arbitrary inputs is by construction: the model is a total function on all
`List Char`.) -/
theorem parseCounterLabel_safe (label : List Char) :
    (parseCounterLabel label).fields.lookup "label" = some (.str label)
    ∧ (parseCounterLabel label).fields.lookup "stream_id"
        = (numericField "stream-id=".data label).map FieldVal.int
    ∧ (parseCounterLabel label).fields.lookup "session_id"
        = (numericField "session-id=".data label).map FieldVal.int
    ∧ ((parseCounterLabel label).tags.lookup "channel").isSome
        = (indexOfSub "aeron:".data label).isSome
    ∧ (∀ i, indexOfSub "aeron:".data label = some i → i + 6 ≤ label.length)
    ∧ (∀ i, indexOfSub "stream-id=".data label = some i → i + 10 ≤ label.length)
    ∧ (∀ i, indexOfSub "session-id=".data label = some i → i + 11 ≤ label.length) := by
  refine ⟨?_, ?_, ?_, ?_, ?_, ?_, ?_⟩
  · cases h1 : numericField "stream-id=".data label <;>
      cases h2 : numericField "session-id=".data label <;>
        simp [parseCounterLabel, h1, h2, List.lookup]
  · cases h1 : numericField "stream-id=".data label <;>
      cases h2 : numericField "session-id=".data label <;>
        simp [parseCounterLabel, h1, h2, List.lookup]
  · cases h1 : numericField "stream-id=".data label <;>
      cases h2 : numericField "session-id=".data label <;>
        simp [parseCounterLabel, h1, h2, List.lookup]
  · cases h : indexOfSub "aeron:".data label with
    | none => simp [parseCounterLabel, channelTags, h, List.lookup]
    | some idx =>
      simp only [parseCounterLabel, channelTags, h]
      split <;> simp [List.lookup]
  · intro i hi
    have hb := indexOfSub_bound hi
    have h6 : ("aeron:".data).length = 6 := rfl
    omega
  · intro i hi
    have hb := indexOfSub_bound hi
    have h10 : ("stream-id=".data).length = 10 := rfl
    omega
  · intro i hi
    have hb := indexOfSub_bound hi
    have h11 : ("session-id=".data).length = 11 := rfl
    omega

/-- Witness for the C9 theorem at the spec's example label, where the
`stream-id=` marker occurs at position 35 of a 47-char label. -/
theorem parseCounterLabel_safe_witness :
    (parseCounterLabel "aeron:udp?endpoint=localhost:40123 stream-id=10".data).fields.lookup "label"
        = some (.str "aeron:udp?endpoint=localhost:40123 stream-id=10".data)
    ∧ 35 + 10 ≤ ("aeron:udp?endpoint=localhost:40123 stream-id=10".data).length :=
  ⟨(parseCounterLabel_safe _).1,
   (parseCounterLabel_safe _).2.2.2.2.2.1 35 (by decide)⟩

end AeronTelegraf
